import Mathlib

/-!
# Verification of the opensnitch-tui control-plane core

A shallow embedding of the daemon-facing protocol server, the prompt
decision machinery and the concurrent state store of `opensnitch-tui`
(`internal/daemon/server.go`, `internal/daemon/stats.go`,
`internal/state/store.go`), together with theorems settling the frozen
claims about them.

Conventions used throughout:
* Go `time.Time` / `time.Duration` values are modelled as `Int`
  nanoseconds (`time.Unix` seconds where the source stores seconds);
  the Go zero time is `0`.
* Go maps are modelled as association lists with unique keys and
  first-match lookup; Go slices are `List`s.
* Fallible Go functions returning `(T, error)` become
  `Except String T`; mutators returning `bool` become `Bool × State`.
* `pb.Operator` and `state.RuleOperator` carry exactly the same fields
  (`Type`, `Operand`, `Data`, `Sensitive`, children list), so a single
  `RuleOperator` type stands for both; the Go conversion helpers
  (`convertRuleOperator` / `serializeRuleOperator`) are deep copies and
  appear here as the corresponding `Option`-handling functions.
-/

/-- `state.Connection`: immutable description of a candidate connection
(fields as read by `internal/daemon/server.go`). -/
structure Connection where
  protocol : String := ""
  srcIP : String := ""
  srcPort : Nat := 0
  dstIP : String := ""
  dstHost : String := ""
  dstPort : Nat := 0
  userID : Nat := 0
  processID : Nat := 0
  processPath : String := ""
  processCWD : String := ""
  processArgs : List String := []
  processChecksums : List (String × String) := []
  deriving Repr, DecidableEq

/-- Rule operator tree (`pb.Operator` / `state.RuleOperator`): Type,
Operand, Data, Sensitive and an ordered children list. -/
inductive RuleOperator : Type where
  | mk (type : String) (operand : String) (data : String)
      (sensitive : Bool) (children : List RuleOperator) : RuleOperator
  deriving Repr

/-- `Type` field of a rule operator. -/
def RuleOperator.type : RuleOperator → String
  | .mk t _ _ _ _ => t

/-- `Operand` field of a rule operator. -/
def RuleOperator.operand : RuleOperator → String
  | .mk _ o _ _ _ => o

/-- `Data` field of a rule operator. -/
def RuleOperator.data : RuleOperator → String
  | .mk _ _ d _ _ => d

/-- `Sensitive` field of a rule operator. -/
def RuleOperator.sensitive : RuleOperator → Bool
  | .mk _ _ _ s _ => s

/-- Children (`List` in `pb.Operator`, `Children` in `state.RuleOperator`). -/
def RuleOperator.children : RuleOperator → List RuleOperator
  | .mk _ _ _ _ c => c

-- `ruleTypeSimple` constant from server.go.
def ruleTypeSimple : String := "simple"

-- Operand constants from server.go.
def operandProcessPath : String := "process.path"

def operandProcessCmd : String := "process.command"

def operandProcessID : String := "process.id"

def operandUserID : String := "user.id"

def operandDestIP : String := "dest.ip"

def operandDestHost : String := "dest.host"

def operandDestPort : String := "dest.port"

-- `controller.PromptTarget` constants (string-typed in the source).
def promptTargetProcessPath : String := "process.path"

def promptTargetProcessCmd : String := "process.command"

def promptTargetProcessID : String := "process.id"

def promptTargetUserID : String := "user.id"

def promptTargetDestinationIP : String := "dest.ip"

def promptTargetDestinationHost : String := "dest.host"

def promptTargetDestinationPort : String := "dest.port"

/-- `simpleOperator(operand, data)` from server.go: a leaf operator of
type "simple". -/
def simpleOperator (operand data : String) : RuleOperator :=
  .mk ruleTypeSimple operand data false []

/-- `strings.Join(args, " ")`. -/
def joinSpace : List String → String
  | [] => ""
  | [a] => a
  | a :: rest => a ++ " " ++ joinSpace rest

/-- `strings.TrimSpace`: strip leading and trailing whitespace. -/
def trimSpace (s : String) : String :=
  ⟨((s.data.dropWhile Char.isWhitespace).reverse.dropWhile
      Char.isWhitespace).reverse⟩

/-- The command line `operatorForTarget` computes for the
process-command target: `strings.TrimSpace(strings.Join(args, " "))`. -/
def joinedCmdLine (args : List String) : String :=
  trimSpace (joinSpace args)

/-- `operatorForTarget(conn, target)` from server.go: maps a target kind
to a concrete leaf operator, switching on the `controller.PromptTarget`
constants exactly as the Go `switch`. -/
def operatorForTarget (conn : Connection) (target : String) :
    Except String RuleOperator :=
  if target = promptTargetProcessPath then
    if conn.processPath = "" then .error "process path unavailable"
    else .ok (simpleOperator operandProcessPath conn.processPath)
  else if target = promptTargetProcessCmd then
    let cmdLine := joinedCmdLine conn.processArgs
    if cmdLine = "" then
      if conn.processPath = "" then .error "command line unavailable"
      else .ok (simpleOperator operandProcessPath conn.processPath)
    else .ok (simpleOperator operandProcessCmd cmdLine)
  else if target = promptTargetProcessID then
    .ok (simpleOperator operandProcessID (toString conn.processID))
  else if target = promptTargetUserID then
    .ok (simpleOperator operandUserID (toString conn.userID))
  else if target = promptTargetDestinationIP then
    if conn.dstIP = "" then .error "destination ip unavailable"
    else .ok (simpleOperator operandDestIP conn.dstIP)
  else if target = promptTargetDestinationHost then
    if conn.dstHost = "" then .error "destination host unavailable"
    else .ok (simpleOperator operandDestHost conn.dstHost)
  else if target = promptTargetDestinationPort then
    if conn.dstPort = 0 then .error "destination port unavailable"
    else .ok (simpleOperator operandDestPort (toString conn.dstPort))
  else .error ("unsupported target " ++ target)

example :
    operatorForTarget { processPath := "/bin/sh" } promptTargetProcessCmd =
      .ok (simpleOperator operandProcessPath "/bin/sh") := by rfl

example :
    operatorForTarget { dstIP := "" } promptTargetDestinationIP =
      .error "destination ip unavailable" := by rfl

-- `controller.PromptAction` / `controller.PromptDuration` constants.
def promptActionAllow : String := "allow"

def promptActionDeny : String := "deny"

def promptActionReject : String := "reject"

def promptDurationOnce : String := "once"

def promptDurationUntilRestart : String := "until restart"

def promptDurationAlways : String := "always"

/-- `normalizePromptAction` from server.go: `allow|deny|reject` pass
through, anything else maps to deny. -/
def normalizePromptAction (action : String) : String :=
  if action = promptActionAllow ∨ action = promptActionDeny ∨
      action = promptActionReject then action
  else promptActionDeny

/-- `normalizePromptDuration` from server.go: `once|until restart|always`
pass through, anything else maps to once. -/
def normalizePromptDuration (duration : String) : String :=
  if duration = promptDurationOnce ∨ duration = promptDurationUntilRestart ∨
      duration = promptDurationAlways then duration
  else promptDurationOnce

/-- `targetAvailable(conn, target)` from server.go: whether the target
kind's backing connection field is populated. -/
def targetAvailable (conn : Connection) (target : String) : Bool :=
  if target = promptTargetProcessPath then conn.processPath != ""
  else if target = promptTargetProcessCmd then
    conn.processArgs.length > 0 || conn.processPath != ""
  else if target = promptTargetDestinationHost then conn.dstHost != ""
  else if target = promptTargetDestinationIP then conn.dstIP != ""
  else if target = promptTargetDestinationPort then conn.dstPort != 0
  else if target = promptTargetProcessID ∨ target = promptTargetUserID then
    true
  else false

/-- `bestAvailableTarget(conn)` from server.go: the first available
target in the source's fixed `switch` order. -/
def bestAvailableTarget (conn : Connection) : String :=
  if conn.processPath != "" then promptTargetProcessPath
  else if conn.processArgs.length > 0 then promptTargetProcessCmd
  else if conn.dstHost != "" then promptTargetDestinationHost
  else if conn.dstIP != "" then promptTargetDestinationIP
  else if conn.dstPort != 0 then promptTargetDestinationPort
  else promptTargetProcessID

/-- `state.Settings` (fields as read by the server and store). The
`promptTimeout` field is a `time.Duration`, in nanoseconds. -/
structure Settings where
  defaultPromptAction : String := ""
  defaultPromptDuration : String := ""
  defaultPromptTarget : String := ""
  promptTimeout : Int := 0
  alertsInterrupt : Bool := false
  pausePromptOnInspect : Bool := false
  yaraRuleDir : String := ""
  yaraEnabled : Bool := false
  themeName : String := ""
  deriving Repr, DecidableEq

/-- `state.Prompt`: a pending connection prompt. Times in nanoseconds;
`remaining` is a duration, valid while `paused`. -/
structure Prompt where
  id : String := ""
  nodeID : String := ""
  nodeName : String := ""
  connection : Connection := {}
  requestedAt : Int := 0
  expiresAt : Int := 0
  paused : Bool := false
  remaining : Int := 0
  deriving Repr, DecidableEq

/-- `controller.PromptDecision`: an operator's selection for a pending
prompt (all fields string-typed in the source). -/
structure PromptDecision where
  promptID : String := ""
  action : String := ""
  duration : String := ""
  target : String := ""
  deriving Repr, DecidableEq

/-- `pb.Rule`: the wire-format rule. `created` is unix seconds;
`operator` is a nullable pointer. -/
structure PbRule where
  created : Int := 0
  name : String := ""
  description : String := ""
  enabled : Bool := false
  precedence : Bool := false
  nolog : Bool := false
  action : String := ""
  duration : String := ""
  operator : Option RuleOperator := none
  deriving Repr

/-- `state.Rule`: a stored daemon rule. `createdAt` is unix seconds,
with `0` standing for the Go zero time. -/
structure Rule where
  nodeID : String := ""
  name : String := ""
  description : String := ""
  action : String := ""
  duration : String := ""
  enabled : Bool := false
  precedence : Bool := false
  noLog : Bool := false
  createdAt : Int := 0
  operator : RuleOperator := .mk "" "" "" false []
  deriving Repr

/-- `convertRuleOperator` from rules.go: a nil operator becomes the zero
value; otherwise a deep copy (field identity in this embedding, since
`pb.Operator` and `state.RuleOperator` carry the same fields). -/
def convertRuleOperator : Option RuleOperator → RuleOperator
  | none => .mk "" "" "" false []
  | some op => op

/-- `serializeRuleOperator` from rules.go: deep copy back to the wire
form (the identity in this embedding). -/
def serializeRuleOperator (op : RuleOperator) : RuleOperator := op

/-- `convertRule(rule, nodeID)` from rules.go. `CreatedAt` is set only
when the wire timestamp is positive. -/
def convertRule (rule : Option PbRule) (nodeID : String) : Rule :=
  match rule with
  | none => {}
  | some rule =>
    { nodeID := nodeID
      name := rule.name
      description := rule.description
      action := rule.action
      duration := rule.duration
      enabled := rule.enabled
      precedence := rule.precedence
      noLog := rule.nolog
      operator := convertRuleOperator rule.operator
      createdAt := if rule.created > 0 then rule.created else 0 }

/-- `serializeRule(rule)` from rules.go. `Created` is set only when the
stored timestamp is not the zero time. -/
def serializeRule (rule : Rule) : PbRule :=
  { name := rule.name
    description := rule.description
    enabled := rule.enabled
    precedence := rule.precedence
    nolog := rule.noLog
    action := rule.action
    duration := rule.duration
    operator := some (serializeRuleOperator rule.operator)
    created := if rule.createdAt ≠ 0 then rule.createdAt else 0 }

/-- `defaultPromptDecision(prompt)` from server.go, with the Settings
snapshot passed explicitly: deny/once/bestAvailableTarget overridden by
non-empty configured defaults (the configured target only when
available), then normalized. -/
def defaultPromptDecision (settings : Settings) (prompt : Prompt) :
    PromptDecision :=
  let action := if settings.defaultPromptAction ≠ "" then
      settings.defaultPromptAction else promptActionDeny
  let duration := if settings.defaultPromptDuration ≠ "" then
      settings.defaultPromptDuration else promptDurationOnce
  let target := if settings.defaultPromptTarget ≠ "" ∧
      targetAvailable prompt.connection settings.defaultPromptTarget then
      settings.defaultPromptTarget
    else bestAvailableTarget prompt.connection
  { promptID := prompt.id
    action := normalizePromptAction action
    duration := normalizePromptDuration duration
    target := target }

/-- `buildRuleFromDecision(prompt, decision)` from server.go, with the
two `time.Now()` reads passed explicitly (`nowSec` for `Created`,
`nowNano` for the generated name). -/
def buildRuleFromDecision (prompt : Prompt) (decision : PromptDecision)
    (nowSec nowNano : Int) : Except String PbRule :=
  let action := normalizePromptAction decision.action
  let duration := normalizePromptDuration decision.duration
  let target := if decision.target = "" then
      bestAvailableTarget prompt.connection
    else decision.target
  match operatorForTarget prompt.connection target with
  | .error e => .error e
  | .ok operator => .ok
    { created := nowSec
      name := "user-" ++ toString nowNano
      enabled := true
      action := action
      duration := duration
      operator := some operator }

/-- The fixed `promptTimeout` constant from server.go
(`30 * time.Second`, in nanoseconds). -/
def promptTimeout : Int := 30 * 1000000000

/-- The Prompt built at the top of `Server.AskRule` (server.go): id is
`nodeID:UnixNano`, `ExpiresAt = now + promptTimeout` with the fixed
constant; the timer waited on is `time.NewTimer(promptTimeout)` with the
same constant. -/
def askRulePrompt (nodeID nodeName : String) (conn : Connection)
    (now : Int) : Prompt :=
  { id := nodeID ++ ":" ++ toString now
    nodeID := nodeID
    nodeName := nodeName
    connection := conn
    requestedAt := now
    expiresAt := now + promptTimeout }

/-- `state.Node`: record of one connected daemon. `status` is the
string-typed `NodeStatus`; `lastSeen` is nanoseconds with `0` the Go
zero time. -/
structure Node where
  id : String := ""
  name : String := ""
  address : String := ""
  version : String := ""
  firewallEnabled : Bool := false
  status : String := ""
  lastSeen : Int := 0
  message : String := ""
  deriving Repr, DecidableEq

/-- `mergeNodes(current, update)` from store.go: every empty/zero field
of the update is replaced by the current value, and `FirewallEnabled`
is forced to `true` whenever the current node had it set. (The Go
function is a sequence of independent per-field fix-ups of `update`;
since each statement touches a distinct field, they are written here as
one record literal.) -/
def mergeNodes (current update : Node) : Node :=
  { id := if update.id = "" then current.id else update.id
    name := if update.name = "" then current.name else update.name
    address := if update.address = "" then current.address
      else update.address
    version := if update.version = "" then current.version
      else update.version
    lastSeen := if update.lastSeen = 0 then current.lastSeen
      else update.lastSeen
    status := if update.status = "" then current.status else update.status
    message := if update.message = "" then current.message
      else update.message
    firewallEnabled := if !update.firewallEnabled && current.firewallEnabled
      then true else update.firewallEnabled }

/-- `Store.upsertNodeLocked` from store.go: `indexOfLocked` scans for
the first node with the update's ID and replaces it with the merge;
an unseen ID is appended. (The linear scan plus in-place replacement
is written here as one structural recursion.) -/
def upsertNodeLocked : List Node → Node → List Node
  | [], node => [node]
  | c :: rest, node =>
    if c.id = node.id then mergeNodes c node :: rest
    else c :: upsertNodeLocked rest node

/-- First-match lookup of a node by ID (the observation the server's
`nodeName` and `indexOfLocked` both perform on `Snapshot().Nodes`). -/
def storedNode : List Node → String → Option Node
  | [], _ => none
  | c :: rest, id => if c.id = id then some c else storedNode rest id

/-- `state.Alert` (fields as built by `convertAlert` in alerts.go). -/
structure Alert where
  id : String := ""
  nodeID : String := ""
  text : String := ""
  priority : String := ""
  type : String := ""
  action : String := ""
  createdAt : Int := 0
  deriving Repr, DecidableEq

/-- `state.StatBucket`: one top-N breakdown entry. -/
structure StatBucket where
  label : String := ""
  value : Nat := 0
  deriving Repr, DecidableEq

/-- `state.Stats`: per-node telemetry snapshot. -/
structure Stats where
  nodeID : String := ""
  nodeName : String := ""
  daemonVersion : String := ""
  rules : Nat := 0
  connections : Nat := 0
  accepted : Nat := 0
  dropped : Nat := 0
  ignored : Nat := 0
  ruleHits : Nat := 0
  ruleMisses : Nat := 0
  topDestHosts : List StatBucket := []
  topDestPorts : List StatBucket := []
  topExecutables : List StatBucket := []
  updatedAt : Int := 0
  deriving Repr

/-- Go-map first-match lookup over an association list. -/
def mapGet {α : Type} (m : List (String × α)) (k : String) : Option α :=
  match m with
  | [] => none
  | (k', v) :: rest => if k' = k then some v else mapGet rest k

/-- Go-map assignment: replace the existing binding or append a new one. -/
def mapSet {α : Type} : List (String × α) → String → α → List (String × α)
  | [], k, v => [(k, v)]
  | (k', v') :: rest, k, v =>
    if k' = k then (k, v) :: rest else (k', v') :: mapSet rest k v

/-- Go-map `delete`: drop the binding for the key, if present. -/
def mapDel {α : Type} : List (String × α) → String → List (String × α)
  | [], _ => []
  | (k', v') :: rest, k =>
    if k' = k then rest else (k', v') :: mapDel rest k

/-- `maxAlerts` constant from store.go. -/
def maxAlerts : Nat := 100

/-- `errorDisplayTTL` from store.go (`10 * time.Second`, nanoseconds). -/
def errorDisplayTTL : Int := 10 * 1000000000

/-- The mutable contents of `state.Store` (its `snapshot` field),
restricted to the state the claims touch. -/
structure StoreState where
  nodes : List Node := []
  stats : Stats := {}
  rules : List (String × List Rule) := []
  alerts : List Alert := []
  prompts : List Prompt := []
  settings : Settings := {}
  lastError : String := ""
  lastErrorAt : Int := 0

/-- `Store.syncRuleCountLocked` from store.go: keep the derived
`Stats.Rules` counter in sync when the tracked stats node matches. -/
def syncRuleCountLocked (st : StoreState) (nodeID : String) : StoreState :=
  if nodeID = "" then st
  else if st.stats.nodeID ≠ nodeID then st
  else { st with stats :=
    { st.stats with rules := ((mapGet st.rules nodeID).getD []).length } }

/-- `Store.AddRule` from store.go: stamp the node ID onto the rule,
append it to that node's list and sync the rule counter. -/
def addRule (st : StoreState) (nodeID : String) (rule : Rule) : StoreState :=
  let list := (mapGet st.rules nodeID).getD []
  let stamped : Rule := { rule with nodeID := nodeID }
  let rules' := mapSet st.rules nodeID (list ++ [stamped])
  syncRuleCountLocked { st with rules := rules' } nodeID

/-- The in-list part of `Store.updateRuleLocked`: mutate the first rule
with the given name, reporting whether one was found. -/
def updateRuleInList (fn : Rule → Rule) (name : String) :
    List Rule → Option (List Rule)
  | [] => none
  | r :: rest =>
    if r.name = name then some (fn r :: rest)
    else (updateRuleInList fn name rest).map (r :: ·)

/-- `Store.UpdateRule` from store.go (with a total mutation function;
the Go nil-function guard cannot fire for the server's callers). -/
def updateRule (st : StoreState) (nodeID ruleName : String)
    (fn : Rule → Rule) : Bool × StoreState :=
  match mapGet st.rules nodeID with
  | none => (false, st)
  | some list =>
    match updateRuleInList fn ruleName list with
    | none => (false, st)
    | some list' =>
      (true, syncRuleCountLocked
        { st with rules := mapSet st.rules nodeID list' } nodeID)

/-- The in-list part of `Store.RemoveRule`: drop the first rule with the
given name, reporting whether one was found. -/
def removeRuleFromList (name : String) : List Rule → Option (List Rule)
  | [] => none
  | r :: rest =>
    if r.name = name then some rest
    else (removeRuleFromList name rest).map (r :: ·)

/-- `Store.RemoveRule` from store.go: remove the first match, dropping
the node's map entry when its list becomes empty, then sync the rule
counter. -/
def removeRule (st : StoreState) (nodeID ruleName : String) :
    Bool × StoreState :=
  match mapGet st.rules nodeID with
  | none => (false, st)
  | some list =>
    match removeRuleFromList ruleName list with
    | none => (false, st)
    | some list' =>
      let rules := if list'.isEmpty then mapDel st.rules nodeID
        else mapSet st.rules nodeID list'
      (true, syncRuleCountLocked { st with rules := rules } nodeID)

/-- `Store.AddAlert` from store.go: prepend, then truncate to the ring
capacity. -/
def addAlert (st : StoreState) (alert : Alert) : StoreState :=
  { st with alerts := (alert :: st.alerts).take maxAlerts }

/-- `Store.SetError` from store.go: record the message with its issue
timestamp (`time.Now()` passed explicitly). The goroutine it spawns
runs `expireError` with this same `now` after `errorDisplayTTL`. -/
def setError (st : StoreState) (msg : String) (now : Int) : StoreState :=
  { st with lastError := msg, lastErrorAt := now }

/-- `Store.expireError(issuedAt)` from store.go: the scheduled clear,
which fires only if an error is still displayed and its issue timestamp
still equals the one recorded when the clear was scheduled. -/
def expireError (st : StoreState) (issuedAt : Int) : StoreState :=
  if st.lastError = "" then st
  else if st.lastErrorAt ≠ issuedAt then st
  else { st with lastError := "", lastErrorAt := 0 }

/-- `config.DefaultPromptTimeoutSeconds`. -/
def defaultPromptTimeoutSeconds : Int := 30

/-- `Store.AddPrompt` from store.go: fill in zero request/expiry times
from `now` and the configured (or default) prompt timeout, then append. -/
def addPrompt (st : StoreState) (prompt : Prompt) (now : Int) : StoreState :=
  let prompt := if prompt.requestedAt = 0 then
      { prompt with requestedAt := now } else prompt
  let prompt := if prompt.expiresAt = 0 then
      let timeout := if st.settings.promptTimeout ≤ 0 then
          defaultPromptTimeoutSeconds * 1000000000
        else st.settings.promptTimeout
      { prompt with expiresAt := prompt.requestedAt + timeout }
    else prompt
  { st with prompts := st.prompts ++ [prompt] }

/-- The in-list part of `Store.RemovePrompt`: drop the first prompt with
the given ID, reporting whether one was found. -/
def removePromptFromList (id : String) : List Prompt → Option (List Prompt)
  | [] => none
  | p :: rest =>
    if p.id = id then some rest
    else (removePromptFromList id rest).map (p :: ·)

/-- `Store.RemovePrompt` from store.go. -/
def removePrompt (st : StoreState) (id : String) : Bool × StoreState :=
  match removePromptFromList id st.prompts with
  | none => (false, st)
  | some prompts' => (true, { st with prompts := prompts' })

/-- `pb.Action` values used by the rule mutation paths. -/
inductive PbAction : Type where
  | enableRule
  | disableRule
  | deleteRule
  deriving Repr, DecidableEq

/-- `pb.Notification`: a message pushed to a daemon describing a rule
mutation. -/
structure Notification where
  id : Nat := 0
  type : PbAction := .enableRule
  serverName : String := ""
  clientName : String := ""
  rules : List PbRule := []
  deriving Repr

/-- The buffered capacity of a session's outbound channel
(`make(chan *pb.Notification, 8)` in `registerSession`). -/
def sessionQueueCapacity : Nat := 8

/-- `promptRequest` from server.go. The depth-1 buffered response
channel is modelled by its contents: `none` while empty, `some rule`
once a resolution has been sent into it. -/
structure PromptRequest where
  id : String := ""
  prompt : Prompt := {}
  response : Option PbRule := none
  deriving Repr

/-- The `daemon.Server` state the claims touch: the owned store, the
session registry (node ID to the pending contents of that session's
bounded outbound queue), the notification sequence counter and the
prompt registry. -/
structure ServerState where
  store : StoreState := {}
  sessions : List (String × List Notification) := []
  notifySeqID : Nat := 0
  prompts : List (String × PromptRequest) := []
  serverName : String := "opensnitch-tui"

/-- `Server.sendNotification` from server.go: fail when the node has no
registered session; otherwise a non-blocking channel send that fails
when the bounded queue is full. -/
def sendNotification (srv : ServerState) (nodeID : String)
    (notif : Notification) : Except String ServerState :=
  match mapGet srv.sessions nodeID with
  | none => .error ("node " ++ nodeID ++ " not connected")
  | some queue =>
    if queue.length < sessionQueueCapacity then
      .ok { srv with sessions := mapSet srv.sessions nodeID (queue ++ [notif]) }
    else .error ("notification buffer full for " ++ nodeID)

/-- `Server.lookupRule` from server.go: first rule with the given name
in the snapshot's list for the node. -/
def lookupRule (srv : ServerState) (nodeID ruleName : String) :
    Except String Rule :=
  match ((mapGet srv.store.rules nodeID).getD []).find?
      (fun r => r.name = ruleName) with
  | some rule => .ok rule
  | none => .error ("rule " ++ ruleName ++ " not found for " ++ nodeID)

/-- `Server.newNotification` from server.go: increment the sequence
counter and build the notification envelope. -/
def newNotification (srv : ServerState) (action : PbAction)
    (nodeID : String) : Notification × ServerState :=
  let id := srv.notifySeqID + 1
  (⟨id, action, srv.serverName, nodeID, []⟩,
    { srv with notifySeqID := id })

/-- `Server.enqueueRuleAction` from server.go: look up the rule, apply
the mutation to the local copy, send the notification, and only on a
successful send apply the mutation to the store. (The sequence counter
is incremented by `newNotification` even when the send then fails.) -/
def enqueueRuleAction (srv : ServerState) (nodeID ruleName : String)
    (action : PbAction) (mutate : Rule → Rule) :
    Except String Unit × ServerState :=
  match lookupRule srv nodeID ruleName with
  | .error e => (.error e, srv)
  | .ok rule =>
    let rule := mutate rule
    let (notif, srv) := newNotification srv action nodeID
    let notif := { notif with rules := [serializeRule rule] }
    match sendNotification srv nodeID notif with
    | .error e => (.error e, srv)
    | .ok srv =>
      let store' := (updateRule srv.store nodeID ruleName mutate).2
      (.ok (), { srv with store := store' })

/-- `Server.EnableRule` from server.go. -/
def enableRule (srv : ServerState) (nodeID ruleName : String) :
    Except String Unit × ServerState :=
  enqueueRuleAction srv nodeID ruleName .enableRule
    (fun rule => { rule with enabled := true })

/-- `Server.DisableRule` from server.go. -/
def disableRule (srv : ServerState) (nodeID ruleName : String) :
    Except String Unit × ServerState :=
  enqueueRuleAction srv nodeID ruleName .disableRule
    (fun rule => { rule with enabled := false })

/-- `Server.DeleteRule` from server.go: look up, notify, and only on a
successful send remove the rule from the store. -/
def deleteRule (srv : ServerState) (nodeID ruleName : String) :
    Except String Unit × ServerState :=
  match lookupRule srv nodeID ruleName with
  | .error e => (.error e, srv)
  | .ok rule =>
    let (notif, srv) := newNotification srv .deleteRule nodeID
    let notif := { notif with rules := [serializeRule rule] }
    match sendNotification srv nodeID notif with
    | .error e => (.error e, srv)
    | .ok srv =>
      let store' := (removeRule srv.store nodeID ruleName).2
      (.ok (), { srv with store := store' })

/-- `Server.ResolvePrompt` from server.go, with the two `time.Now()`
reads of `buildRuleFromDecision` passed explicitly. The non-blocking
send into the depth-1 response channel succeeds exactly when the slot
is still empty; note that `AddRule` has already run by the time the
"already resolved" branch is reached. -/
def resolvePrompt (srv : ServerState) (decision : PromptDecision)
    (nowSec nowNano : Int) : Except String Unit × ServerState :=
  if decision.promptID = "" then (.error "prompt id required", srv)
  else
    match mapGet srv.prompts decision.promptID with
    | none => (.error ("prompt " ++ decision.promptID ++ " not found"), srv)
    | some req =>
      match buildRuleFromDecision req.prompt decision nowSec nowNano with
      | .error e => (.error e, srv)
      | .ok rule =>
        let stateRule := convertRule (some rule) req.prompt.nodeID
        let srv := { srv with
          store := addRule srv.store req.prompt.nodeID stateRule }
        match req.response with
        | none =>
          let req' := { req with response := some rule }
          let store' := (removePrompt srv.store decision.promptID).2
          (.ok (), { srv with
            prompts := mapSet srv.prompts req.id req', store := store' })
        | some _ =>
          (.error ("prompt " ++ decision.promptID ++ " already resolved"),
            srv)

/-- Go's `<` on strings, on the character sequence: lexicographic
comparison (UTF-8 byte order coincides with code-point order). -/
def charListLt : List Char → List Char → Bool
  | _, [] => false
  | [], _ :: _ => true
  | a :: as, b :: bs =>
    if a.toNat < b.toNat then true
    else if b.toNat < a.toNat then false
    else charListLt as bs

/-- Go string comparison `a < b`. -/
def stringLt (a b : String) : Bool := charListLt a.data b.data

/-- The Go comparator passed to `sort.Slice` in `topBuckets`
(stats.go): larger counts first, ties by label ascending. -/
def bucketLess (a b : StatBucket) : Bool :=
  if a.value = b.value then stringLt a.label b.label
  else decide (b.value < a.value)

/-- Insert a bucket into a list sorted by `bucketLess`. -/
def insertBucket (a : StatBucket) : List StatBucket → List StatBucket
  | [] => [a]
  | b :: rest =>
    if bucketLess b a then b :: insertBucket a rest else a :: b :: rest

/-- Sorting by the `bucketLess` comparator (the effect of the
`sort.Slice` call in stats.go; on the label-distinct lists a Go map
produces, this order is strict and total, so any correct sort yields
this list). -/
def sortBuckets : List StatBucket → List StatBucket
  | [] => []
  | a :: rest => insertBucket a (sortBuckets rest)

/-- `topBuckets(values, size)` from stats.go, with the Go map given as
an association list in iteration order: drop zero counts, sort by the
comparator and truncate to `size`. -/
def topBuckets (values : List (String × Nat)) (size : Int) :
    List StatBucket :=
  if values.length = 0 ∨ size ≤ 0 then []
  else
    let buckets := (values.filter (fun kv => kv.2 != 0)).map
      (fun kv => StatBucket.mk kv.1 kv.2)
    if buckets.length = 0 then []
    else (sortBuckets buckets).take size.toNat

/-- `pb.Statistics` (the fields `convertStats` reads; the count maps as
association lists in iteration order). -/
structure PbStatistics where
  daemonVersion : String := ""
  rules : Nat := 0
  connections : Nat := 0
  accepted : Nat := 0
  dropped : Nat := 0
  ignored : Nat := 0
  ruleHits : Nat := 0
  ruleMisses : Nat := 0
  byHost : List (String × Nat) := []
  byPort : List (String × Nat) := []
  byExecutable : List (String × Nat) := []
  deriving Repr

/-- `convertStats(stats, nodeID, nodeName)` from stats.go, with
`time.Now()` passed explicitly. -/
def convertStats (stats : Option PbStatistics) (nodeID nodeName : String)
    (now : Int) : Stats :=
  match stats with
  | none => { nodeID := nodeID, nodeName := nodeName, updatedAt := now }
  | some stats =>
    { nodeID := nodeID
      nodeName := nodeName
      daemonVersion := stats.daemonVersion
      rules := stats.rules
      connections := stats.connections
      accepted := stats.accepted
      dropped := stats.dropped
      ignored := stats.ignored
      ruleHits := stats.ruleHits
      ruleMisses := stats.ruleMisses
      topDestHosts := topBuckets stats.byHost 5
      topDestPorts := topBuckets stats.byPort 5
      topExecutables := topBuckets stats.byExecutable 5
      updatedAt := now }

/-- Modelled from the spec: the Prompt Coordinator's
`Pause(promptID)` - "stops the timer, computes
`Remaining = ExpiresAt - now`, marks the Prompt `Paused` with that
Remaining". The `PausePrompt` implementation is absent from the
sources; only its test (`TestPauseResumePromptUpdatesStore`) is
present, so the prompt mutation it performs is modelled here from the
spec's words. -/
def pausePrompt (p : Prompt) (now : Int) : Prompt :=
  { p with paused := true, remaining := p.expiresAt - now }

/-- Modelled from the spec: the Prompt Coordinator's
`Resume(promptID)` - "computes a new `ExpiresAt = now + Remaining`,
clears `Paused`/`Remaining`, restarts the timer for that duration".
The `ResumePrompt` implementation is absent from the sources; modelled
from the spec's words as for `pausePrompt`. -/
def resumePrompt (p : Prompt) (now : Int) : Prompt :=
  { p with expiresAt := now + p.remaining, paused := false, remaining := 0 }

/-- C9: pausing a prompt records `Remaining = ExpiresAt - now` and marks
it paused; resuming sets `ExpiresAt = now + Remaining` and clears the
pause bookkeeping; a pause at `t1` followed by a resume at `t2` shifts
the deadline by exactly the elapsed pause duration `t2 - t1`, conserving
the total allowed wait time. -/
theorem pauseResume_conserves_deadline (p : Prompt) (t1 t2 : Int) :
    (pausePrompt p t1).paused = true ∧
    (pausePrompt p t1).remaining = p.expiresAt - t1 ∧
    (resumePrompt (pausePrompt p t1) t2).expiresAt =
      p.expiresAt + (t2 - t1) ∧
    (resumePrompt (pausePrompt p t1) t2).paused = false ∧
    (resumePrompt (pausePrompt p t1) t2).remaining = 0 := by
  refine ⟨rfl, rfl, ?_, rfl, rfl⟩
  show t2 + (p.expiresAt - t1) = p.expiresAt + (t2 - t1)
  ring

/-- C3: `AskRule` stamps `ExpiresAt` (and arms its timer) with the fixed
30-second `promptTimeout` constant, not the configured
`Settings.PromptTimeout`: with a configured timeout of 10ms the prompt
still expires `30s` after the request time. -/
theorem askRule_fixed_timeout_ignores_settings :
    (askRulePrompt "tcp://1.2.3.4:6000" "node" {} 0).expiresAt =
      0 + promptTimeout ∧
    promptTimeout = 30 * 1000000000 ∧
    ({ promptTimeout := 10000000 } : Settings).promptTimeout ≠
      promptTimeout ∧
    (askRulePrompt "tcp://1.2.3.4:6000" "node" {} 0).expiresAt ≠
      0 + ({ promptTimeout := 10000000 } : Settings).promptTimeout := by
  refine ⟨rfl, rfl, by decide, by decide⟩

/-- C8: `expireError` clears the store only when the displayed error's
issue timestamp still equals the one recorded when the clear was
scheduled; the clear scheduled by a `SetError` at `t` does clear the
error it set, and an error set at a strictly later instant `t'` is
never cleared by the earlier schedule's expiry; the TTL is the fixed
10-second `errorDisplayTTL`. -/
theorem setError_expire_guard :
    (∀ (st : StoreState) (t : Int), st.lastErrorAt ≠ t →
      expireError st t = st) ∧
    (∀ (st : StoreState) (msg : String) (t : Int),
      (expireError (setError st msg t) t).lastError = "") ∧
    (∀ (st : StoreState) (msg msg' : String) (t t' : Int), t < t' →
      expireError (setError (setError st msg t) msg' t') t =
        setError (setError st msg t) msg' t') ∧
    errorDisplayTTL = 10 * 1000000000 := by
  refine ⟨?_, ?_, ?_, rfl⟩
  · intro st t h
    simp [expireError, h]
  · intro st msg t
    by_cases hm : msg = "" <;> simp [setError, expireError, hm]
  · intro st msg msg' t t' hlt
    have hne : (setError (setError st msg t) msg' t').lastErrorAt ≠ t := by
      show t' ≠ t
      omega
    simp [expireError, hne]

/-- Truncating after appending an already-truncated tail is the same as
truncating the full concatenation. -/
theorem take_append_take {α : Type} (n : Nat) (xs ys : List α) :
    (xs ++ ys.take n).take n = (xs ++ ys).take n := by
  rw [List.take_append_eq_append_take, List.take_append_eq_append_take,
    List.take_take]
  congr 1
  rw [Nat.min_eq_left (Nat.sub_le n xs.length)]

/-- Folding `AddAlert` over a bounded alert list keeps exactly the most
recent `maxAlerts` entries, newest first. -/
theorem foldl_addAlert (l : List Alert) :
    ∀ (st : StoreState), st.alerts.length ≤ maxAlerts →
      (l.foldl addAlert st).alerts = (l.reverse ++ st.alerts).take maxAlerts := by
  induction l with
  | nil =>
    intro st h
    simp [List.take_of_length_le h]
  | cons a l ih =>
    intro st h
    have hlen : (addAlert st a).alerts.length ≤ maxAlerts := by
      simp [addAlert, List.length_take]
    calc ((a :: l).foldl addAlert st).alerts
        = (l.foldl addAlert (addAlert st a)).alerts := rfl
      _ = (l.reverse ++ (addAlert st a).alerts).take maxAlerts := ih _ hlen
      _ = (l.reverse ++ (a :: st.alerts).take maxAlerts).take maxAlerts := rfl
      _ = (l.reverse ++ (a :: st.alerts)).take maxAlerts :=
          take_append_take maxAlerts _ _
      _ = ((a :: l).reverse ++ st.alerts).take maxAlerts := by
          simp

/-- C7: after N `AddAlert` calls on a fresh store, the alert ring holds
exactly `min N maxAlerts` entries - the most recently added ones in
newest-first order (so the oldest are the entries evicted on overflow) -
with capacity `maxAlerts = 100`. -/
theorem addAlert_ring_buffer (l : List Alert) :
    (l.foldl addAlert {}).alerts = l.reverse.take maxAlerts ∧
    (l.foldl addAlert {}).alerts.length = min l.length maxAlerts ∧
    maxAlerts = 100 := by
  have h := foldl_addAlert l {} (by simp)
  have h2 : (l.foldl addAlert ({} : StoreState)).alerts =
      l.reverse.take maxAlerts := by simpa using h
  refine ⟨h2, ?_, rfl⟩
  rw [h2]
  simp [List.length_take, Nat.min_comm]

/-- A server state holding one registered prompt whose depth-1 response
slot is already filled: exactly what a duplicate `ResolvePrompt` for
the same prompt ID observes after the first resolution. -/
def dupResolveSrv : ServerState :=
  { prompts := [("p1",
      { id := "p1"
        prompt := { id := "p1", nodeID := "node-1"
                    connection := { processPath := "/usr/bin/curl" } }
        response := some {} })] }

/-- The duplicate submission a UI double-click produces. -/
def dupResolveDecision : PromptDecision :=
  { promptID := "p1", action := "allow", duration := "always"
    target := "process.path" }

/-- C1: evaluating `ResolvePrompt` at the duplicate-resolve state: the
call does fail with the "already resolved" condition, but because
`AddRule` runs before the response-slot check, the store's rule list
for the node has still grown from 0 to 1 rules - the duplicate Resolve
adds a Rule, contradicting the guard's stated purpose. -/
theorem resolvePrompt_duplicate_still_adds_rule :
    (resolvePrompt dupResolveSrv dupResolveDecision 0 0).1 =
      .error "prompt p1 already resolved" ∧
    ((mapGet dupResolveSrv.store.rules "node-1").getD []).length = 0 ∧
    ((mapGet (resolvePrompt dupResolveSrv dupResolveDecision 0 0).2.store.rules
        "node-1").getD []).length = 1 := by
  refine ⟨rfl, rfl, rfl⟩

/-- The seven target kinds `operatorForTarget`'s switch accepts. -/
def knownTargets : List String :=
  [promptTargetProcessPath, promptTargetProcessCmd, promptTargetProcessID,
    promptTargetUserID, promptTargetDestinationIP,
    promptTargetDestinationHost, promptTargetDestinationPort]

theorem operatorForTarget_path_eq (conn : Connection) :
    operatorForTarget conn promptTargetProcessPath =
      if conn.processPath = "" then .error "process path unavailable"
      else .ok (simpleOperator operandProcessPath conn.processPath) := by
  unfold operatorForTarget
  rw [if_pos rfl]

theorem operatorForTarget_cmd_eq (conn : Connection) :
    operatorForTarget conn promptTargetProcessCmd =
      if joinedCmdLine conn.processArgs = "" then
        if conn.processPath = "" then .error "command line unavailable"
        else .ok (simpleOperator operandProcessPath conn.processPath)
      else .ok (simpleOperator operandProcessCmd
        (joinedCmdLine conn.processArgs)) := by
  unfold operatorForTarget
  rw [if_neg (by decide), if_pos rfl]

theorem operatorForTarget_pid_eq (conn : Connection) :
    operatorForTarget conn promptTargetProcessID =
      .ok (simpleOperator operandProcessID (toString conn.processID)) := by
  unfold operatorForTarget
  rw [if_neg (by decide), if_neg (by decide), if_pos rfl]

theorem operatorForTarget_uid_eq (conn : Connection) :
    operatorForTarget conn promptTargetUserID =
      .ok (simpleOperator operandUserID (toString conn.userID)) := by
  unfold operatorForTarget
  rw [if_neg (by decide), if_neg (by decide), if_neg (by decide), if_pos rfl]

theorem operatorForTarget_ip_eq (conn : Connection) :
    operatorForTarget conn promptTargetDestinationIP =
      if conn.dstIP = "" then .error "destination ip unavailable"
      else .ok (simpleOperator operandDestIP conn.dstIP) := by
  unfold operatorForTarget
  rw [if_neg (by decide), if_neg (by decide), if_neg (by decide),
    if_neg (by decide), if_pos rfl]

theorem operatorForTarget_host_eq (conn : Connection) :
    operatorForTarget conn promptTargetDestinationHost =
      if conn.dstHost = "" then .error "destination host unavailable"
      else .ok (simpleOperator operandDestHost conn.dstHost) := by
  unfold operatorForTarget
  rw [if_neg (by decide), if_neg (by decide), if_neg (by decide),
    if_neg (by decide), if_neg (by decide), if_pos rfl]

theorem operatorForTarget_port_eq (conn : Connection) :
    operatorForTarget conn promptTargetDestinationPort =
      if conn.dstPort = 0 then .error "destination port unavailable"
      else .ok (simpleOperator operandDestPort (toString conn.dstPort)) := by
  unfold operatorForTarget
  rw [if_neg (by decide), if_neg (by decide), if_neg (by decide),
    if_neg (by decide), if_neg (by decide), if_neg (by decide), if_pos rfl]

theorem operatorForTarget_unknown_eq (conn : Connection) (target : String)
    (h : target ∉ knownTargets) :
    operatorForTarget conn target =
      .error ("unsupported target " ++ target) := by
  simp only [knownTargets, List.mem_cons, List.not_mem_nil, or_false,
    not_or] at h
  obtain ⟨h1, h2, h3, h4, h5, h6, h7⟩ := h
  unfold operatorForTarget
  rw [if_neg h1, if_neg h2, if_neg h3, if_neg h4, if_neg h5, if_neg h6,
    if_neg h7]

/-- C2 counterexample: for the process-command target on a connection
whose args list (the backing field) is empty but whose process path is
set, `operatorForTarget` does not fail - it silently substitutes a
process-path operator, whose operand names a different target kind than
the one requested. -/
theorem operatorForTarget_cmd_substitutes_path :
    operatorForTarget { processPath := "/bin/sh" } promptTargetProcessCmd =
      .ok (simpleOperator operandProcessPath "/bin/sh") ∧
    ({ processPath := "/bin/sh" } : Connection).processArgs = [] ∧
    operandProcessPath ≠ promptTargetProcessCmd := by
  exact ⟨rfl, rfl, by decide⟩

/-- C2 (amended): per-target characterization of `operatorForTarget`.
The path, destination-ip, destination-host and destination-port targets
fail exactly when their backing field is empty/zero and otherwise yield
the simple operator naming the requested kind; the process-command
target falls back to a process-path operator when the joined command
line is empty (erroring only when the path is also empty); the
process-id and user-id targets always succeed, formatting the (possibly
zero) numeric field; any other target kind errors as unsupported. -/
theorem operatorForTarget_characterization (conn : Connection) :
    ((operatorForTarget conn promptTargetProcessPath).isOk = false ↔
      conn.processPath = "") ∧
    (∀ op, operatorForTarget conn promptTargetProcessPath = .ok op →
      op = simpleOperator operandProcessPath conn.processPath) ∧
    ((operatorForTarget conn promptTargetProcessCmd).isOk = false ↔
      (joinedCmdLine conn.processArgs = "" ∧ conn.processPath = "")) ∧
    (∀ op, operatorForTarget conn promptTargetProcessCmd = .ok op →
      op = if joinedCmdLine conn.processArgs = "" then
          simpleOperator operandProcessPath conn.processPath
        else simpleOperator operandProcessCmd
          (joinedCmdLine conn.processArgs)) ∧
    (operatorForTarget conn promptTargetProcessID =
      .ok (simpleOperator operandProcessID (toString conn.processID))) ∧
    (operatorForTarget conn promptTargetUserID =
      .ok (simpleOperator operandUserID (toString conn.userID))) ∧
    ((operatorForTarget conn promptTargetDestinationIP).isOk = false ↔
      conn.dstIP = "") ∧
    (∀ op, operatorForTarget conn promptTargetDestinationIP = .ok op →
      op = simpleOperator operandDestIP conn.dstIP) ∧
    ((operatorForTarget conn promptTargetDestinationHost).isOk = false ↔
      conn.dstHost = "") ∧
    (∀ op, operatorForTarget conn promptTargetDestinationHost = .ok op →
      op = simpleOperator operandDestHost conn.dstHost) ∧
    ((operatorForTarget conn promptTargetDestinationPort).isOk = false ↔
      conn.dstPort = 0) ∧
    (∀ op, operatorForTarget conn promptTargetDestinationPort = .ok op →
      op = simpleOperator operandDestPort (toString conn.dstPort)) ∧
    (∀ target, target ∉ knownTargets →
      operatorForTarget conn target =
        .error ("unsupported target " ++ target)) := by
  refine ⟨?_, ?_, ?_, ?_, ?_, ?_, ?_, ?_, ?_, ?_, ?_, ?_, ?_⟩
  · rw [operatorForTarget_path_eq]
    by_cases h : conn.processPath = "" <;> simp [h, Except.isOk, Except.toBool]
  · intro op hop
    rw [operatorForTarget_path_eq] at hop
    by_cases h : conn.processPath = "" <;> simp [h] at hop
    exact hop.symm
  · rw [operatorForTarget_cmd_eq]
    by_cases hc : joinedCmdLine conn.processArgs = "" <;>
      by_cases hp : conn.processPath = "" <;> simp [hc, hp, Except.isOk, Except.toBool]
  · intro op hop
    rw [operatorForTarget_cmd_eq] at hop
    by_cases hc : joinedCmdLine conn.processArgs = "" <;>
      by_cases hp : conn.processPath = "" <;> simp [hc, hp] at hop ⊢ <;>
      exact hop.symm
  · exact operatorForTarget_pid_eq conn
  · exact operatorForTarget_uid_eq conn
  · rw [operatorForTarget_ip_eq]
    by_cases h : conn.dstIP = "" <;> simp [h, Except.isOk, Except.toBool]
  · intro op hop
    rw [operatorForTarget_ip_eq] at hop
    by_cases h : conn.dstIP = "" <;> simp [h] at hop
    exact hop.symm
  · rw [operatorForTarget_host_eq]
    by_cases h : conn.dstHost = "" <;> simp [h, Except.isOk, Except.toBool]
  · intro op hop
    rw [operatorForTarget_host_eq] at hop
    by_cases h : conn.dstHost = "" <;> simp [h] at hop
    exact hop.symm
  · rw [operatorForTarget_port_eq]
    by_cases h : conn.dstPort = 0 <;> simp [h, Except.isOk, Except.toBool]
  · intro op hop
    rw [operatorForTarget_port_eq] at hop
    by_cases h : conn.dstPort = 0 <;> simp [h] at hop
    exact hop.symm
  · intro target ht
    exact operatorForTarget_unknown_eq conn target ht

/-- C2 witness: the characterization applied to a concrete connection -
a populated destination host succeeds with the matching operator. -/
theorem operatorForTarget_characterization_witness :
    operatorForTarget { dstHost := "example.com" }
        promptTargetDestinationHost =
      .ok (simpleOperator operandDestHost "example.com") := by
  have h := (operatorForTarget_characterization
    { dstHost := "example.com" }).2.2.2.2.2.2.2.2.2.1
  exact h (simpleOperator operandDestHost "example.com") rfl ▸ rfl

/-- The merged node keeps the looked-up ID. -/
theorem mergeNodes_id (c u : Node) (hn : c.id = u.id) :
    (mergeNodes c u).id = u.id := by
  by_cases hu : u.id = "" <;> simp [mergeNodes, hu]
  exact hn.trans hu

/-- Upserting an update whose ID is already stored merges it into the
first stored node with that ID. -/
theorem storedNode_upsert (nodes : List Node) (u c : Node)
    (h : storedNode nodes u.id = some c) :
    storedNode (upsertNodeLocked nodes u) u.id =
      some (mergeNodes c u) := by
  induction nodes with
  | nil => simp [storedNode] at h
  | cons n rest ih =>
    by_cases hn : n.id = u.id
    · have hc : c = n := by
        simp [storedNode, hn] at h
        exact h.symm
      subst hc
      simp [upsertNodeLocked, hn, storedNode, mergeNodes_id c u hn]
    · have h' : storedNode rest u.id = some c := by
        simpa [storedNode, hn] using h
      simp [upsertNodeLocked, hn, storedNode]
      exact ih h'

/-- C6: merging node upserts never blanks data - an upsert whose Name,
Address, Version, Status or Message is empty leaves the stored field's
previous value in place - and `FirewallEnabled`, once true on the
stored node, remains true across any sequence of subsequent upserts for
that node ID. -/
theorem upsertNode_no_blank_sticky_firewall :
    (∀ (nodes : List Node) (u c : Node),
      storedNode nodes u.id = some c →
      ((u.name = "" →
        (storedNode (upsertNodeLocked nodes u) u.id).map Node.name =
          some c.name) ∧
       (u.address = "" →
        (storedNode (upsertNodeLocked nodes u) u.id).map Node.address =
          some c.address) ∧
       (u.version = "" →
        (storedNode (upsertNodeLocked nodes u) u.id).map Node.version =
          some c.version) ∧
       (u.status = "" →
        (storedNode (upsertNodeLocked nodes u) u.id).map Node.status =
          some c.status) ∧
       (u.message = "" →
        (storedNode (upsertNodeLocked nodes u) u.id).map Node.message =
          some c.message) ∧
       (c.firewallEnabled = true →
        (storedNode (upsertNodeLocked nodes u) u.id).map
          Node.firewallEnabled = some true))) ∧
    (∀ (nodes : List Node) (id : String) (updates : List Node),
      (∀ v ∈ updates, v.id = id) →
      (storedNode nodes id).map Node.firewallEnabled = some true →
      (storedNode (updates.foldl upsertNodeLocked nodes) id).map
        Node.firewallEnabled = some true) := by
  constructor
  · intro nodes u c h
    rw [storedNode_upsert nodes u c h]
    refine ⟨?_, ?_, ?_, ?_, ?_, ?_⟩ <;> intro hf <;>
      simp [mergeNodes, hf]
  · intro nodes id updates
    induction updates generalizing nodes with
    | nil => intro _ h; exact h
    | cons v rest ih =>
      intro hids h
      have hvid : v.id = id := hids v (List.mem_cons_self v rest)
      obtain ⟨c, hc, hcfw⟩ : ∃ c, storedNode nodes id = some c ∧
          c.firewallEnabled = true := by
        cases hsn : storedNode nodes id with
        | none => rw [hsn] at h; simp at h
        | some c =>
          rw [hsn] at h
          exact ⟨c, rfl, by simpa using h⟩
      have hstep := storedNode_upsert nodes v c (hvid ▸ hc)
      rw [List.foldl_cons]
      refine ih (upsertNodeLocked nodes v)
        (fun w hw => hids w (List.mem_cons_of_mem v hw)) ?_
      rw [hvid] at hstep
      rw [hstep]
      simp [mergeNodes, hcfw]

/-- C6 witness: a stored node with a name and firewall enabled survives
an upsert carrying an empty name, and the firewall flag survives a
subsequent all-empty upsert sequence. -/
theorem upsertNode_no_blank_witness :
    (({ id := "n1" } : Node).name = "" ∧
      (storedNode (upsertNodeLocked
          [{ id := "n1", name := "alpha", firewallEnabled := true }]
          { id := "n1" }) "n1").map Node.name = some "alpha") ∧
    (storedNode (List.foldl upsertNodeLocked
        [{ id := "n1", name := "alpha", firewallEnabled := true }]
        [{ id := "n1" }, { id := "n1", name := "beta" }]) "n1").map
      Node.firewallEnabled = some true := by
  have h1 := (upsertNode_no_blank_sticky_firewall.1
    [{ id := "n1", name := "alpha", firewallEnabled := true }]
    { id := "n1" }
    { id := "n1", name := "alpha", firewallEnabled := true } rfl).1 rfl
  have h2 := upsertNode_no_blank_sticky_firewall.2
    [{ id := "n1", name := "alpha", firewallEnabled := true }] "n1"
    [{ id := "n1" }, { id := "n1", name := "beta" }] (by decide) rfl
  exact ⟨⟨rfl, h1⟩, h2⟩

/-- A notification send to `nodeID` must fail: no live session, or the
bounded outbound queue is already full. -/
def sendBlocked (srv : ServerState) (nodeID : String) : Prop :=
  mapGet srv.sessions nodeID = none ∨
    ∃ q, mapGet srv.sessions nodeID = some q ∧
      sessionQueueCapacity ≤ q.length

theorem mapGet_mapSet_self {α : Type} (m : List (String × α)) (k : String)
    (v : α) : mapGet (mapSet m k v) k = some v := by
  induction m with
  | nil => simp [mapSet, mapGet]
  | cons e rest ih =>
    by_cases he : e.1 = k
    · simp [mapSet, mapGet, he]
    · cases e with
      | mk k' v' =>
        simp only at he
        simp [mapSet, mapGet, he]
        exact ih

theorem syncRuleCount_rules (st : StoreState) (nodeID : String) :
    (syncRuleCountLocked st nodeID).rules = st.rules := by
  unfold syncRuleCountLocked
  split_ifs <;> rfl

theorem sendNotification_ok_elim {srv srv2 : ServerState}
    {nodeID : String} {notif : Notification}
    (he : sendNotification srv nodeID notif = .ok srv2) :
    srv2.store = srv.store ∧ srv2.prompts = srv.prompts ∧
      srv2.notifySeqID = srv.notifySeqID := by
  unfold sendNotification at he
  split at he
  · exact Except.noConfusion he
  · split_ifs at he
    injection he with he
    rw [← he]
    exact ⟨rfl, rfl, rfl⟩

theorem sendNotification_blocked_ne_ok {srv' srv2 : ServerState}
    {nodeID : String} {notif : Notification} {srv : ServerState}
    (he : sendNotification srv' nodeID notif = .ok srv2)
    (hb : sendBlocked srv nodeID)
    (hs : srv'.sessions = srv.sessions) : False := by
  unfold sendNotification at he
  rw [hs] at he
  split at he
  · exact Except.noConfusion he
  · rename_i q hq
    split_ifs at he with hlt
    rcases hb with h | ⟨q', hq', hlen⟩
    · rw [h] at hq
      exact Option.noConfusion hq
    · rw [hq'] at hq
      injection hq with hq
      subst hq
      omega

theorem sendNotification_unblocked_ne_error {srv' : ServerState}
    {nodeID : String} {notif : Notification} {e : String}
    {srv : ServerState}
    (he : sendNotification srv' nodeID notif = .error e)
    (hb : ¬ sendBlocked srv nodeID)
    (hs : srv'.sessions = srv.sessions) : False := by
  unfold sendBlocked at hb
  push_neg at hb
  obtain ⟨h1, h2⟩ := hb
  unfold sendNotification at he
  rw [hs] at he
  split at he
  · rename_i hq
    exact absurd hq h1
  · rename_i q hq
    split_ifs at he with hlt
    exact hlt (h2 q hq)

/-- `enqueueRuleAction`'s gating behavior: a failed lookup returns that
error with the server untouched; a blocked send fails and leaves the
store untouched; a successful send applies the mutation through
`Store.UpdateRule`. -/
theorem enqueueRuleAction_spec (srv : ServerState) (nodeID name : String)
    (action : PbAction) (mutate : Rule → Rule) :
    (∀ e, lookupRule srv nodeID name = .error e →
      enqueueRuleAction srv nodeID name action mutate = (.error e, srv)) ∧
    (∀ rule, lookupRule srv nodeID name = .ok rule →
      (sendBlocked srv nodeID →
        (enqueueRuleAction srv nodeID name action mutate).1.isOk = false ∧
        (enqueueRuleAction srv nodeID name action mutate).2.store =
          srv.store) ∧
      (¬ sendBlocked srv nodeID →
        (enqueueRuleAction srv nodeID name action mutate).1 = .ok () ∧
        (enqueueRuleAction srv nodeID name action mutate).2.store =
          (updateRule srv.store nodeID name mutate).2)) := by
  constructor
  · intro e he
    simp [enqueueRuleAction, he]
  · intro rule hr
    constructor
    · intro hb
      simp only [enqueueRuleAction, hr, newNotification]
      split
      · exact ⟨rfl, rfl⟩
      · rename_i srv2 hs2
        exact absurd hs2 (fun h =>
          sendNotification_blocked_ne_ok h hb rfl)
    · intro hb
      simp only [enqueueRuleAction, hr, newNotification]
      split
      · rename_i e he
        exact absurd he (fun h =>
          sendNotification_unblocked_ne_error h hb rfl)
      · rename_i srv2 hs2
        have hst := (sendNotification_ok_elim hs2).1
        exact ⟨rfl, by simp [hst]⟩

/-- `DeleteRule`'s gating behavior, mirroring `enqueueRuleAction_spec`
with `Store.RemoveRule` as the store mutation. -/
theorem deleteRule_spec (srv : ServerState) (nodeID name : String) :
    (∀ e, lookupRule srv nodeID name = .error e →
      deleteRule srv nodeID name = (.error e, srv)) ∧
    (∀ rule, lookupRule srv nodeID name = .ok rule →
      (sendBlocked srv nodeID →
        (deleteRule srv nodeID name).1.isOk = false ∧
        (deleteRule srv nodeID name).2.store = srv.store) ∧
      (¬ sendBlocked srv nodeID →
        (deleteRule srv nodeID name).1 = .ok () ∧
        (deleteRule srv nodeID name).2.store =
          (removeRule srv.store nodeID name).2)) := by
  constructor
  · intro e he
    simp [deleteRule, he]
  · intro rule hr
    constructor
    · intro hb
      simp only [deleteRule, hr, newNotification]
      split
      · exact ⟨rfl, rfl⟩
      · rename_i srv2 hs2
        exact absurd hs2 (fun h =>
          sendNotification_blocked_ne_ok h hb rfl)
    · intro hb
      simp only [deleteRule, hr, newNotification]
      split
      · rename_i e he
        exact absurd he (fun h =>
          sendNotification_unblocked_ne_error h hb rfl)
      · rename_i srv2 hs2
        have hst := (sendNotification_ok_elim hs2).1
        exact ⟨rfl, by simp [hst]⟩

theorem lookupRule_ok_elim {srv : ServerState} {nodeID name : String}
    {rule : Rule} (h : lookupRule srv nodeID name = .ok rule) :
    ((mapGet srv.store.rules nodeID).getD []).find?
      (fun r => r.name = name) = some rule := by
  unfold lookupRule at h
  split at h
  · rename_i r heq
    injection h with h
    rw [← h]
    exact heq
  · exact Except.noConfusion h

theorem updateRuleInList_find (fn : Rule → Rule) (name : String)
    (hfn : ∀ r, (fn r).name = r.name) :
    ∀ (list : List Rule) (rule : Rule),
      list.find? (fun r => r.name = name) = some rule →
      ∃ list', updateRuleInList fn name list = some list' ∧
        list'.find? (fun r => r.name = name) = some (fn rule) := by
  intro list
  induction list with
  | nil =>
    intro rule h
    simp at h
  | cons r rest ih =>
    intro rule h
    by_cases hr : r.name = name
    · have hrule : rule = r := by
        rw [List.find?_cons_of_pos _ (by simpa using hr)] at h
        exact (Option.some_inj.mp h).symm
      subst hrule
      refine ⟨fn rule :: rest, by simp [updateRuleInList, hr], ?_⟩
      rw [List.find?_cons_of_pos _ (by simp [hfn, hr])]
    · rw [List.find?_cons_of_neg _ (by simpa using hr)] at h
      obtain ⟨list', hup, hfind⟩ := ih rule h
      refine ⟨r :: list', ?_, ?_⟩
      · simp [updateRuleInList, hr, hup]
      · rw [List.find?_cons_of_neg _ (by simpa using hr)]
        exact hfind

/-- After a successful `UpdateRule` the first rule with the mutated
name is the mutated rule. -/
theorem updateRule_find (st : StoreState) (nodeID name : String)
    (fn : Rule → Rule) (hfn : ∀ r, (fn r).name = r.name) (rule : Rule)
    (h : ((mapGet st.rules nodeID).getD []).find?
      (fun r => r.name = name) = some rule) :
    ((mapGet (updateRule st nodeID name fn).2.rules nodeID).getD
      []).find? (fun r => r.name = name) = some (fn rule) := by
  cases hm : mapGet st.rules nodeID with
  | none =>
    rw [hm] at h
    simp at h
  | some list =>
    rw [hm] at h
    simp only [Option.getD] at h
    obtain ⟨list', hup, hfind⟩ := updateRuleInList_find fn name hfn list rule h
    unfold updateRule
    rw [hm]
    simp only [hup]
    rw [syncRuleCount_rules, mapGet_mapSet_self]
    exact hfind

/-- C4: for `EnableRule`/`DisableRule`/`DeleteRule` - a missing
`(nodeID, name)` rule fails with the not-found error and leaves the
server (store included) unchanged; a failed notification send (no live
session or full bounded queue) fails and leaves the store unchanged;
only a successful send applies the mutation (the Enabled flag set or
cleared on the stored rule, or the rule removed via
`Store.RemoveRule`). -/
theorem ruleMutation_send_gates_store (srv : ServerState)
    (nodeID name : String) :
    (∀ e, lookupRule srv nodeID name = .error e →
      enableRule srv nodeID name = (.error e, srv) ∧
      disableRule srv nodeID name = (.error e, srv) ∧
      deleteRule srv nodeID name = (.error e, srv)) ∧
    (∀ rule, lookupRule srv nodeID name = .ok rule →
      sendBlocked srv nodeID →
      ((enableRule srv nodeID name).1.isOk = false ∧
        (enableRule srv nodeID name).2.store = srv.store) ∧
      ((disableRule srv nodeID name).1.isOk = false ∧
        (disableRule srv nodeID name).2.store = srv.store) ∧
      ((deleteRule srv nodeID name).1.isOk = false ∧
        (deleteRule srv nodeID name).2.store = srv.store)) ∧
    (∀ rule, lookupRule srv nodeID name = .ok rule →
      ¬ sendBlocked srv nodeID →
      ((enableRule srv nodeID name).1 = .ok () ∧
        (enableRule srv nodeID name).2.store =
          (updateRule srv.store nodeID name
            (fun r => { r with enabled := true })).2 ∧
        (((mapGet (enableRule srv nodeID name).2.store.rules
            nodeID).getD []).find? (fun r => r.name = name)).map
          Rule.enabled = some true) ∧
      ((disableRule srv nodeID name).1 = .ok () ∧
        (disableRule srv nodeID name).2.store =
          (updateRule srv.store nodeID name
            (fun r => { r with enabled := false })).2 ∧
        (((mapGet (disableRule srv nodeID name).2.store.rules
            nodeID).getD []).find? (fun r => r.name = name)).map
          Rule.enabled = some false) ∧
      ((deleteRule srv nodeID name).1 = .ok () ∧
        (deleteRule srv nodeID name).2.store =
          (removeRule srv.store nodeID name).2)) := by
  have hen := enqueueRuleAction_spec srv nodeID name .enableRule
    (fun r => { r with enabled := true })
  have hdi := enqueueRuleAction_spec srv nodeID name .disableRule
    (fun r => { r with enabled := false })
  have hde := deleteRule_spec srv nodeID name
  refine ⟨?_, ?_, ?_⟩
  · intro e he
    exact ⟨hen.1 e he, hdi.1 e he, hde.1 e he⟩
  · intro rule hr hb
    exact ⟨(hen.2 rule hr).1 hb, (hdi.2 rule hr).1 hb,
      (hde.2 rule hr).1 hb⟩
  · intro rule hr hb
    have hfind := lookupRule_ok_elim hr
    obtain ⟨hok1, hst1⟩ := (hen.2 rule hr).2 hb
    obtain ⟨hok2, hst2⟩ := (hdi.2 rule hr).2 hb
    obtain ⟨hok3, hst3⟩ := (hde.2 rule hr).2 hb
    have hst1' : (enableRule srv nodeID name).2.store =
        (updateRule srv.store nodeID name
          (fun r => { r with enabled := true })).2 := hst1
    have hst2' : (disableRule srv nodeID name).2.store =
        (updateRule srv.store nodeID name
          (fun r => { r with enabled := false })).2 := hst2
    refine ⟨⟨hok1, hst1', ?_⟩, ⟨hok2, hst2', ?_⟩, hok3, hst3⟩
    · rw [hst1', updateRule_find srv.store nodeID name
        (fun r => { r with enabled := true }) (fun r => rfl) rule hfind]
      rfl
    · rw [hst2', updateRule_find srv.store nodeID name
        (fun r => { r with enabled := false }) (fun r => rfl) rule hfind]
      rfl

/-- A one-node, one-rule, empty-queue server used to witness the
success path of the rule mutations. -/
def c4Srv : ServerState :=
  { store := { rules := [("node-1", [{ name := "ssh" }])] }
    sessions := [("node-1", [])] }

/-- C4 witness: with rule "ssh" present and an empty session queue for
"node-1", `EnableRule` succeeds and the stored rule is enabled. -/
theorem ruleMutation_send_gates_store_witness :
    lookupRule c4Srv "node-1" "ssh" = .ok { name := "ssh" } ∧
    (enableRule c4Srv "node-1" "ssh").1 = .ok () ∧
    (((mapGet (enableRule c4Srv "node-1" "ssh").2.store.rules
        "node-1").getD []).find? (fun r => r.name = "ssh")).map
      Rule.enabled = some true := by
  have hnb : ¬ sendBlocked c4Srv "node-1" := by
    intro h
    have hm : mapGet c4Srv.sessions "node-1" = some [] := rfl
    rcases h with h | ⟨q, hq, hlen⟩
    · rw [hm] at h
      exact Option.noConfusion h
    · rw [hm] at hq
      injection hq with hq
      subst hq
      simp [sessionQueueCapacity] at hlen
  have h := (ruleMutation_send_gates_store c4Srv "node-1" "ssh").2.2
    { name := "ssh" } rfl hnb
  exact ⟨rfl, h.1.1, h.1.2.2⟩

theorem normalizePromptAction_idem (a : String) :
    normalizePromptAction (normalizePromptAction a) =
      normalizePromptAction a := by
  unfold normalizePromptAction
  split_ifs with h1 <;> rfl

theorem normalizePromptDuration_idem (d : String) :
    normalizePromptDuration (normalizePromptDuration d) =
      normalizePromptDuration d := by
  unfold normalizePromptDuration
  split_ifs with h1 <;> rfl

theorem bestAvailableTarget_ne_empty (conn : Connection) :
    bestAvailableTarget conn ≠ "" := by
  unfold bestAvailableTarget
  split_ifs <;> decide

/-- C5: whenever the AskRule timeout path produces a rule (built by
`buildRuleFromDecision` from `defaultPromptDecision`), the rule's
action and duration are the normalized Settings defaults (deny/once
when unset), and its operator is the one built for the configured
DefaultPromptTarget when that target is available on the connection,
otherwise for `bestAvailableTarget` - which selects the first populated
backing field in the fixed order: process path, process command/args,
destination host, destination ip, destination port, process id. -/
theorem timeout_decision_normalized_defaults (settings : Settings)
    (p : Prompt) (nowSec nowNano : Int) (r : PbRule)
    (h : buildRuleFromDecision p (defaultPromptDecision settings p)
      nowSec nowNano = .ok r) :
    r.action = normalizePromptAction
      (if settings.defaultPromptAction ≠ "" then
        settings.defaultPromptAction else promptActionDeny) ∧
    r.duration = normalizePromptDuration
      (if settings.defaultPromptDuration ≠ "" then
        settings.defaultPromptDuration else promptDurationOnce) ∧
    (∃ op, r.operator = some op ∧
      operatorForTarget p.connection
        (if settings.defaultPromptTarget ≠ "" ∧
            targetAvailable p.connection settings.defaultPromptTarget then
          settings.defaultPromptTarget
        else bestAvailableTarget p.connection) = .ok op) ∧
    (p.connection.processPath ≠ "" →
      bestAvailableTarget p.connection = promptTargetProcessPath) ∧
    (p.connection.processPath = "" → p.connection.processArgs ≠ [] →
      bestAvailableTarget p.connection = promptTargetProcessCmd) ∧
    (p.connection.processPath = "" → p.connection.processArgs = [] →
      p.connection.dstHost ≠ "" →
      bestAvailableTarget p.connection = promptTargetDestinationHost) ∧
    (p.connection.processPath = "" → p.connection.processArgs = [] →
      p.connection.dstHost = "" → p.connection.dstIP ≠ "" →
      bestAvailableTarget p.connection = promptTargetDestinationIP) ∧
    (p.connection.processPath = "" → p.connection.processArgs = [] →
      p.connection.dstHost = "" → p.connection.dstIP = "" →
      p.connection.dstPort ≠ 0 →
      bestAvailableTarget p.connection = promptTargetDestinationPort) ∧
    (p.connection.processPath = "" → p.connection.processArgs = [] →
      p.connection.dstHost = "" → p.connection.dstIP = "" →
      p.connection.dstPort = 0 →
      bestAvailableTarget p.connection = promptTargetProcessID) := by
  have htne : (if settings.defaultPromptTarget ≠ "" ∧
      targetAvailable p.connection settings.defaultPromptTarget then
        settings.defaultPromptTarget
      else bestAvailableTarget p.connection) ≠ "" := by
    split_ifs with hc
    · exact hc.1
    · exact bestAvailableTarget_ne_empty p.connection
  simp only [buildRuleFromDecision, defaultPromptDecision] at h
  rw [if_neg htne] at h
  split at h
  · exact Except.noConfusion h
  · rename_i op hop
    injection h with h
    rw [← h]
    refine ⟨normalizePromptAction_idem _, normalizePromptDuration_idem _,
      ⟨op, rfl, hop⟩, ?_, ?_, ?_, ?_, ?_, ?_⟩ <;>
      intros <;> simp [bestAvailableTarget, *]

/-- C5 witness: with configured defaults allow/always/dest.host and a
connection carrying that host, the timeout path builds the matching
rule. -/
theorem timeout_decision_normalized_defaults_witness :
    buildRuleFromDecision
        { connection := { dstHost := "example.com" } }
        (defaultPromptDecision
          { defaultPromptAction := "allow"
            defaultPromptDuration := "always"
            defaultPromptTarget := "dest.host" }
          { connection := { dstHost := "example.com" } }) 0 0 =
      .ok { created := 0, name := "user-0", enabled := true
            action := "allow", duration := "always"
            operator := some (simpleOperator operandDestHost
              "example.com") } ∧
    ({ created := 0, name := "user-0", enabled := true
       action := "allow", duration := "always"
       operator := some (simpleOperator operandDestHost
         "example.com") } : PbRule).action =
      normalizePromptAction "allow" := by
  refine ⟨rfl, ?_⟩
  have h := (timeout_decision_normalized_defaults
    { defaultPromptAction := "allow"
      defaultPromptDuration := "always"
      defaultPromptTarget := "dest.host" }
    { connection := { dstHost := "example.com" } } 0 0
    { created := 0, name := "user-0", enabled := true
      action := "allow", duration := "always"
      operator := some (simpleOperator operandDestHost "example.com") }
    rfl).1
  simpa using h

/-- C8 witness: an expiry whose recorded timestamp no longer matches
leaves the store unchanged, and an error set later (t = 1) survives the
expiry scheduled at t = 0. -/
theorem setError_expire_guard_witness :
    ((setError {} "x" 5).lastErrorAt ≠ 7 ∧
      expireError (setError {} "x" 5) 7 = setError {} "x" 5) ∧
    ((0 : Int) < 1 ∧
      expireError (setError (setError {} "a" 0) "b" 1) 0 =
        setError (setError {} "a" 0) "b" 1) :=
  ⟨⟨by decide, setError_expire_guard.1 (setError {} "x" 5) 7 (by decide)⟩,
    ⟨by decide, setError_expire_guard.2.2.1 {} "a" "b" 0 1 (by decide)⟩⟩

theorem charListLt_asymm : ∀ {a b : List Char},
    charListLt a b = true → charListLt b a = false := by
  intro a
  induction a with
  | nil =>
    intro b h
    cases b with
    | nil => simp [charListLt] at h
    | cons c cs => simp [charListLt]
  | cons x xs ih =>
    intro b h
    cases b with
    | nil => simp [charListLt] at h
    | cons y ys =>
      unfold charListLt at h ⊢
      split_ifs at h ⊢ with h1 h2 h3 <;>
        first | rfl | omega | exact ih h

theorem charListLt_false_trans : ∀ {a b c : List Char},
    charListLt b a = false → charListLt c b = false →
    charListLt c a = false := by
  intro a
  induction a with
  | nil =>
    intro b c _ _
    cases c with
    | nil => rfl
    | cons z zs => rfl
  | cons x xs ih =>
    intro b c h1 h2
    cases b with
    | nil => simp [charListLt] at h1
    | cons y ys =>
      cases c with
      | nil => simp [charListLt] at h2
      | cons z zs =>
        unfold charListLt at h1 h2 ⊢
        split_ifs at h1 h2 ⊢ with ha hb hc hd hf hg <;>
          first | rfl | omega | exact ih h1 h2

/-- The order `sort.Slice` sorts into: counts descending, ties by label
ascending (expressed with the Go string comparison). -/
def bucketOrdered (x y : StatBucket) : Prop :=
  y.value < x.value ∨
    (y.value = x.value ∧ stringLt y.label x.label = false)

theorem bucketLess_true_ordered {b a : StatBucket}
    (h : bucketLess b a = true) : bucketOrdered b a := by
  unfold bucketLess at h
  split_ifs at h with hv
  · exact Or.inr ⟨hv.symm, charListLt_asymm h⟩
  · exact Or.inl (by simpa using h)

theorem bucketLess_false_ordered {b a : StatBucket}
    (h : bucketLess b a = false) : bucketOrdered a b := by
  unfold bucketLess at h
  split_ifs at h with hv
  · exact Or.inr ⟨hv, h⟩
  · simp only [decide_eq_false_iff_not, not_lt] at h
    exact Or.inl (by omega)

theorem bucketOrdered_trans {a b c : StatBucket}
    (h1 : bucketOrdered a b) (h2 : bucketOrdered b c) :
    bucketOrdered a c := by
  rcases h1 with h1 | ⟨h1v, h1l⟩ <;> rcases h2 with h2 | ⟨h2v, h2l⟩
  · exact Or.inl (by omega)
  · exact Or.inl (by omega)
  · exact Or.inl (by omega)
  · exact Or.inr ⟨by omega, charListLt_false_trans h1l h2l⟩

theorem mem_insertBucket {b a : StatBucket} {l : List StatBucket} :
    b ∈ insertBucket a l ↔ b = a ∨ b ∈ l := by
  induction l with
  | nil => simp [insertBucket]
  | cons c rest ih =>
    unfold insertBucket
    split_ifs
    · simp only [List.mem_cons, ih]
      tauto
    · simp only [List.mem_cons]

theorem pairwise_insertBucket (a : StatBucket) (l : List StatBucket)
    (hl : l.Pairwise bucketOrdered) :
    (insertBucket a l).Pairwise bucketOrdered := by
  induction l with
  | nil => simp [insertBucket]
  | cons b rest ih =>
    rw [List.pairwise_cons] at hl
    obtain ⟨hb, hrest⟩ := hl
    unfold insertBucket
    split_ifs with hba
    · rw [List.pairwise_cons]
      constructor
      · intro c hc
        rcases mem_insertBucket.mp hc with rfl | hc
        · exact bucketLess_true_ordered hba
        · exact hb c hc
      · exact ih hrest
    · have hab : bucketOrdered a b :=
        bucketLess_false_ordered (by simpa using hba)
      rw [List.pairwise_cons]
      constructor
      · intro c hc
        rcases List.mem_cons.mp hc with rfl | hc
        · exact hab
        · exact bucketOrdered_trans hab (hb c hc)
      · rw [List.pairwise_cons]
        exact ⟨hb, hrest⟩

theorem sortBuckets_pairwise (l : List StatBucket) :
    (sortBuckets l).Pairwise bucketOrdered := by
  induction l with
  | nil => simp [sortBuckets]
  | cons a rest ih => exact pairwise_insertBucket a _ ih

theorem mem_sortBuckets {b : StatBucket} {l : List StatBucket} :
    b ∈ sortBuckets l ↔ b ∈ l := by
  induction l with
  | nil => simp [sortBuckets]
  | cons a rest ih =>
    unfold sortBuckets
    rw [mem_insertBucket, ih, List.mem_cons]

/-- The properties claimed of one top-N breakdown list: at most five
entries, no zero counts, entries drawn from the input map, sorted by
count descending with ties by label ascending, and empty on empty
input. -/
def topOK (input : List (String × Nat)) (out : List StatBucket) : Prop :=
  out.length ≤ 5 ∧ (∀ b ∈ out, b.value ≠ 0) ∧
  (∀ b ∈ out, (b.label, b.value) ∈ input) ∧
  out.Pairwise bucketOrdered ∧ (input = [] → out = [])

theorem topBuckets_spec (values : List (String × Nat)) :
    topOK values (topBuckets values 5) := by
  unfold topBuckets
  by_cases h0 : values.length = 0 ∨ (5 : Int) ≤ 0
  · rw [if_pos h0]
    exact ⟨by simp, by simp, by simp, by simp, fun _ => rfl⟩
  · rw [if_neg h0]
    show topOK values
      (if ((values.filter (fun kv => kv.2 != 0)).map
          (fun kv => StatBucket.mk kv.1 kv.2)).length = 0 then []
        else (sortBuckets ((values.filter (fun kv => kv.2 != 0)).map
          (fun kv => StatBucket.mk kv.1 kv.2))).take (Int.toNat 5))
    by_cases h1 : ((values.filter (fun kv => kv.2 != 0)).map
        (fun kv => StatBucket.mk kv.1 kv.2)).length = 0
    · rw [if_pos h1]
      exact ⟨by simp, by simp, by simp, by simp, fun _ => rfl⟩
    · rw [if_neg h1]
      have hmem : ∀ b ∈ (sortBuckets ((values.filter
          (fun kv => kv.2 != 0)).map
            (fun kv => StatBucket.mk kv.1 kv.2))).take (Int.toNat 5),
          b.value ≠ 0 ∧ (b.label, b.value) ∈ values := by
        intro b hb
        have hb2 := mem_sortBuckets.mp (List.take_subset _ _ hb)
        rw [List.mem_map] at hb2
        obtain ⟨kv, hkv, hbkv⟩ := hb2
        rw [List.mem_filter] at hkv
        obtain ⟨hkv1, hkv2⟩ := hkv
        rw [← hbkv]
        exact ⟨by simpa using hkv2, hkv1⟩
      refine ⟨?_, fun b hb => (hmem b hb).1, fun b hb => (hmem b hb).2,
        ?_, ?_⟩
      · simp [List.length_take]
      · exact (sortBuckets_pairwise _).sublist (List.take_sublist _ _)
      · intro hv
        subst hv
        simp at h0

/-- C10: every top-N breakdown list `convertStats` builds from the
daemon's count maps (by host, by port, by executable) has at most 5
entries, omits zero-valued counts, draws its entries from the input
map, is sorted by count descending with ties broken by label ascending,
and is empty for an empty input map. -/
theorem convertStats_top_breakdowns (stats : PbStatistics)
    (nodeID nodeName : String) (now : Int) :
    topOK stats.byHost
      (convertStats (some stats) nodeID nodeName now).topDestHosts ∧
    topOK stats.byPort
      (convertStats (some stats) nodeID nodeName now).topDestPorts ∧
    topOK stats.byExecutable
      (convertStats (some stats) nodeID nodeName now).topExecutables :=
  ⟨topBuckets_spec stats.byHost, topBuckets_spec stats.byPort,
    topBuckets_spec stats.byExecutable⟩

/-- C10 witness: on a concrete count map the zero-count entry is
dropped, the tie between "a" and "c" breaks by label, and the length
bound follows from the main theorem. -/
theorem convertStats_top_breakdowns_witness :
    (convertStats (some { byHost := [("c", 2), ("b", 0), ("a", 2),
        ("d", 9)] }) "n" "n" 0).topDestHosts =
      [⟨"d", 9⟩, ⟨"a", 2⟩, ⟨"c", 2⟩] ∧
    (convertStats (some { byHost := [("c", 2), ("b", 0), ("a", 2),
        ("d", 9)] }) "n" "n" 0).topDestHosts.length ≤ 5 := by
  refine ⟨by decide, ?_⟩
  exact (convertStats_top_breakdowns
    { byHost := [("c", 2), ("b", 0), ("a", 2), ("d", 9)] }
    "n" "n" 0).1.1
